import Mathlib

/-
Verification of the oncological-surgery allocation programs
(otimizacao_onco_pulp.py and otimizacao_onco_simplex.py).

Numeric values are embedded as rationals (the Python programs compute with
floats over the small catalog; all arithmetic involved is exact decimal
arithmetic, so the rational embedding is faithful).  Decimal literals such as
8.5 are written as fractions (85/10) because those are the values the source
tables hold.
-/

namespace Onco

/-- One row of the procedure table: the dict `procedimentos` turned into a
pandas DataFrame in both source files (pulp lines 10-29, simplex lines 26-55).
The field `peso` models the extra DataFrame column that
`resolver_simplex_guloso` assigns to the frame it receives (simplex lines
155-160); a freshly constructed catalog has no such column, embedded as
`none`. -/
structure Row where
  id : String
  procedimento : String
  gravidade : ℚ
  tempo_h : ℚ
  custo_r : ℚ
  uti : ℚ
  incidencia_pe : ℚ
  peso : Option ℚ

/-- Build a catalog row (no `peso` column yet). -/
def mkRow (i nome : String) (grav tempo custo utiF inc : ℚ) : Row :=
  ⟨i, nome, grav, tempo, custo, utiF, inc, none⟩

/-- The 8-procedure reference catalog, identical in both source files
(pulp lines 10-27, simplex lines 26-53). -/
def dfOnco : List Row :=
  [ mkRow "P1" "Mastectomia (Cancer de Mama)" (85/10) (35/10) 15000 1 (362/100),
    mkRow "P2" "Prostatectomia (Cancer de Prostata)" (78/10) 4 18000 1 (1001/100),
    mkRow "P3" "Colectomia (Cancer de Colon)" (92/10) 5 25000 1 (1371/100),
    mkRow "P4" "Gastrectomia (Cancer de Estomago)" (95/10) 6 28000 1 (736/100),
    mkRow "P5" "Lobectomia (Cancer de Pulmao)" (98/10) (55/10) 35000 1 (309/100),
    mkRow "P6" "Histerectomia (Cancer de Utero)" (75/10) 3 14000 1 (520/100),
    mkRow "P7" "Tireoidectomia (Cancer de Tireoide)" (65/10) (25/10) 12000 0 (480/100),
    mkRow "P8" "Nefrectomia (Cancer de Rim)" 8 (45/10) 22000 1 (615/100) ]

/-- Objective weight per row in the exact solver, otimizacao_onco_pulp.py
lines 54-59: `gravidade` and `incidencia` are matched exactly; every other
string falls into the final `else` branch (commented custo_beneficio) which
uses severity divided by unit cost times 10000. -/
def pesoPulp (crit : String) (r : Row) : ℚ :=
  if crit = "gravidade" then r.gravidade
  else if crit = "incidencia" then r.incidencia_pe
  else r.gravidade / r.custo_r * 10000

/-- Objective weight per row in the greedy heuristic, otimizacao_onco_simplex.py
lines 155-160 (the value written into the `peso` column): the same three-way
dispatch as the pulp file. -/
def pesoGuloso (crit : String) (r : Row) : ℚ :=
  if crit = "gravidade" then r.gravidade
  else if crit = "incidencia" then r.incidencia_pe
  else r.gravidade / r.custo_r * 10000

/-- Weighted sum Σ f(row_i) * x_i over a catalog and an aligned quantity
vector; the lpSum expressions of otimizacao_onco_pulp.py lines 62-72. -/
def somaPond (f : Row → ℚ) : List Row → List ℕ → ℚ
  | r :: rs, q :: qs => f r * (q : ℚ) + somaPond f rs qs
  | _, _ => 0

/-- Feasibility of an integer quantity vector: the three capacity constraints
added to the LpProblem in otimizacao_onco_pulp.py lines 64-72 (budget, room
hours, ICU beds), together with the variable domain of line 51
(one non-negative integer variable per catalog row, embedded by taking the
vector in `List ℕ` aligned with the catalog). -/
def atende (dfIn : List Row) (orcamento horas_sala leitos_uti : ℚ) (x : List ℕ) : Prop :=
  x.length = dfIn.length ∧
  somaPond (fun r => r.custo_r) dfIn x ≤ orcamento ∧
  somaPond (fun r => r.tempo_h) dfIn x ≤ horas_sala ∧
  somaPond (fun r => r.uti) dfIn x ≤ leitos_uti

/-- The objective Σ w_i * x_i of otimizacao_onco_pulp.py line 62. -/
def valorObj (crit : String) (dfIn : List Row) (x : List ℕ) : ℚ :=
  somaPond (pesoPulp crit) dfIn x

/-- What the Optimal status of the exact solve guarantees
(otimizacao_onco_pulp.py lines 74-82): the solution returned by the external
CBC branch-and-bound solver is feasible and no feasible vector has a larger
objective value.  The solver itself is an external library, so its Optimal
outcome is embedded relationally through the ILP built in lines 47-72. -/
def solucaoOtima (dfIn : List Row) (orcamento horas_sala leitos_uti : ℚ)
    (crit : String) (x : List ℕ) : Prop :=
  atende dfIn orcamento horas_sala leitos_uti x ∧
  ∀ y, atende dfIn orcamento horas_sala leitos_uti y →
    valorObj crit dfIn y ≤ valorObj crit dfIn x

/-- The Infeasible status of the exact solve: no integer vector satisfies the
three constraints. -/
def statusInfeasible (dfIn : List Row) (orcamento horas_sala leitos_uti : ℚ) : Prop :=
  ¬ ∃ x, atende dfIn orcamento horas_sala leitos_uti x

/-- The Unbounded status of the exact solve: feasible objective values exceed
every bound. -/
def statusUnbounded (dfIn : List Row) (orcamento horas_sala leitos_uti : ℚ)
    (crit : String) : Prop :=
  ∀ M : ℚ, ∃ x, atende dfIn orcamento horas_sala leitos_uti x ∧
    M < valorObj crit dfIn x

/-- Python's int() applied to a (rational-valued) float: truncation toward
zero, used on the minimum at otimizacao_onco_simplex.py line 180. -/
def intPy (q : ℚ) : ℤ := if q < 0 then ⌈q⌉ else ⌊q⌋

/-- One entry of the `solucao` list built at otimizacao_onco_simplex.py
lines 184-193. -/
structure ItemSol where
  id : String
  procedimento : String
  quantidade : ℤ
  gravidade : ℚ
  tempo_total_h : ℚ
  custo_total_r : ℚ
  leitos_uti : ℚ
  peso : ℚ

/-- The metrics dict returned at otimizacao_onco_simplex.py lines 201-207. -/
structure Metricas where
  valor_objetivo : ℚ
  orcamento_usado : ℚ
  tempo_usado : ℚ
  uti_usada : ℚ
  total_cirurgias : ℤ

/-- The mutable loop state of otimizacao_onco_simplex.py lines 166-170. -/
structure Estado where
  solucao : List ItemSol
  orcamento_usado : ℚ
  tempo_usado : ℚ
  uti_usada : ℚ
  valor_objetivo : ℚ

/-- Reading the `peso` column of a row (always present by the time the greedy
loop runs, since `resolver_simplex_guloso` assigns it first). -/
def pesoCol (r : Row) : ℚ := r.peso.getD 0

/-- The quantity of `proc` the greedy takes, otimizacao_onco_simplex.py lines
174-180: floor division of remaining budget by the unit cost, true division
of remaining room hours by the duration, floor division of remaining ICU beds
by the ICU flag when positive (no ICU bound otherwise, the float('inf') arm
never being the minimum), and the Python int() of the minimum. -/
def qtdMax (orcamento horas_sala leitos_uti : ℚ) (s : Estado) (proc : Row) : ℤ :=
  let max_por_orcamento : ℚ := ((⌊(orcamento - s.orcamento_usado) / proc.custo_r⌋ : ℤ) : ℚ)
  let max_por_tempo : ℚ := (horas_sala - s.tempo_usado) / proc.tempo_h
  if 0 < proc.uti then
    intPy (min (min max_por_orcamento max_por_tempo)
      ((⌊(leitos_uti - s.uti_usada) / proc.uti⌋ : ℤ) : ℚ))
  else
    intPy (min max_por_orcamento max_por_tempo)

/-- The dict appended to `solucao` at otimizacao_onco_simplex.py lines
184-193. -/
def itemDe (orcamento horas_sala leitos_uti : ℚ) (s : Estado) (proc : Row) : ItemSol :=
  { id := proc.id, procedimento := proc.procedimento,
    quantidade := qtdMax orcamento horas_sala leitos_uti s proc,
    gravidade := proc.gravidade,
    tempo_total_h := (qtdMax orcamento horas_sala leitos_uti s proc : ℚ) * proc.tempo_h,
    custo_total_r := (qtdMax orcamento horas_sala leitos_uti s proc : ℚ) * proc.custo_r,
    leitos_uti := (qtdMax orcamento horas_sala leitos_uti s proc : ℚ) * proc.uti,
    peso := pesoCol proc }

/-- One iteration of the greedy loop, otimizacao_onco_simplex.py lines
173-199: when the quantity that fits is positive, append the item and consume
the resources, otherwise leave the state unchanged. -/
def passoGuloso (orcamento horas_sala leitos_uti : ℚ) (s : Estado) (proc : Row) : Estado :=
  let qtd_max : ℤ := qtdMax orcamento horas_sala leitos_uti s proc
  if 0 < qtd_max then
    { solucao := s.solucao ++ [itemDe orcamento horas_sala leitos_uti s proc],
      orcamento_usado := s.orcamento_usado + (qtd_max : ℚ) * proc.custo_r,
      tempo_usado := s.tempo_usado + (qtd_max : ℚ) * proc.tempo_h,
      uti_usada := s.uti_usada + (qtd_max : ℚ) * proc.uti,
      valor_objetivo := s.valor_objetivo + (qtd_max : ℚ) * pesoCol proc }
  else s

/-- Insert one row into a list kept in descending `peso` order. -/
def insereDesc (a : Row) : List Row → List Row
  | [] => [a]
  | b :: bs => if pesoCol b < pesoCol a then a :: b :: bs else b :: insereDesc a bs

/-- Sorting by the `peso` column in descending order:
df.sort_values('peso', ascending=False) at otimizacao_onco_simplex.py
line 163, embedded as an insertion sort.  The pandas sort may order rows of
equal weight differently; every theorem below about the greedy holds for any
processing order, so the tie-break is immaterial. -/
def ordenaDesc : List Row → List Row
  | [] => []
  | a :: resto => insereDesc a (ordenaDesc resto)

/-- The column assignment df['peso'] = ... of otimizacao_onco_simplex.py
lines 154-160: a write into the DataFrame that the caller passed in. -/
def atribuiPeso (crit : String) (dfIn : List Row) : List Row :=
  if crit = "gravidade" then dfIn.map fun r => { r with peso := some r.gravidade }
  else if crit = "incidencia" then dfIn.map fun r => { r with peso := some r.incidencia_pe }
  else dfIn.map fun r => { r with peso := some (r.gravidade / r.custo_r * 10000) }

/-- Sum of the Quantidade fields, otimizacao_onco_simplex.py line 206. -/
def somaQuantidades (sol : List ItemSol) : ℤ := (sol.map ItemSol.quantidade).sum

/-- What a call to resolver_simplex_guloso leaves behind: the post-state of
the DataFrame argument (which the function mutates by assigning the `peso`
column), plus the returned (solucao, metricas) pair. -/
structure ResultadoGuloso where
  dfFinal : List Row
  solucao : List ItemSol
  metricas : Metricas

/-- The greedy heuristic resolver_simplex_guloso of otimizacao_onco_simplex.py
lines 146-207: assign the `peso` column, sort by it descending, then greedily
take as many units of each row as fit in the remaining resources.  The
function raises no exception on any input; it always returns normally. -/
def resolver_simplex_guloso (dfIn : List Row) (orcamento horas_sala leitos_uti : ℚ)
    (crit : String) : ResultadoGuloso :=
  let dfPeso := atribuiPeso crit dfIn
  let dfSorted := ordenaDesc dfPeso
  let s := dfSorted.foldl (passoGuloso orcamento horas_sala leitos_uti) ⟨[], 0, 0, 0, 0⟩
  { dfFinal := dfPeso,
    solucao := s.solucao,
    metricas := ⟨s.valor_objetivo, s.orcamento_usado, s.tempo_usado, s.uti_usada,
      somaQuantidades s.solucao⟩ }

/-- The module-level reporting branch of otimizacao_onco_simplex.py lines
232-250: the driver treats an empty `solucao` list as "Nenhuma solucao viavel
encontrada (recursos insuficientes)". -/
def reportaInviavel (res : ResultadoGuloso) : Bool := res.solucao.isEmpty

/-- Sum of one numeric field over the returned solution items. -/
def somaItens (f : ItemSol → ℚ) (sol : List ItemSol) : ℚ := (sol.map f).sum

/-! ### Elementary facts about the greedy step -/

lemma intPy_cast_le {q : ℚ} (h : 0 < intPy q) : (intPy q : ℚ) ≤ q := by
  unfold intPy at h ⊢
  by_cases hneg : q < 0
  · rw [if_pos hneg] at h
    exact absurd (Int.ceil_pos.mp h) (by linarith)
  · rw [if_neg hneg] at h ⊢
    exact_mod_cast Int.floor_le q

lemma qtdMax_orc {o hs lu : ℚ} {s : Estado} {r : Row} (hc : 0 < r.custo_r)
    (hq : 0 < qtdMax o hs lu s r) :
    s.orcamento_usado + (qtdMax o hs lu s r : ℚ) * r.custo_r ≤ o := by
  have hle : (qtdMax o hs lu s r : ℚ) ≤ ((⌊(o - s.orcamento_usado) / r.custo_r⌋ : ℤ) : ℚ) := by
    simp only [qtdMax] at hq ⊢
    by_cases hu : 0 < r.uti
    · rw [if_pos hu] at hq ⊢
      exact (intPy_cast_le hq).trans ((min_le_left _ _).trans (min_le_left _ _))
    · rw [if_neg hu] at hq ⊢
      exact (intPy_cast_le hq).trans (min_le_left _ _)
  have h2 : (qtdMax o hs lu s r : ℚ) ≤ (o - s.orcamento_usado) / r.custo_r :=
    hle.trans (Int.floor_le _)
  have h3 := (le_div_iff₀ hc).mp h2
  linarith

lemma qtdMax_tempo {o hs lu : ℚ} {s : Estado} {r : Row} (ht : 0 < r.tempo_h)
    (hq : 0 < qtdMax o hs lu s r) :
    s.tempo_usado + (qtdMax o hs lu s r : ℚ) * r.tempo_h ≤ hs := by
  have h2 : (qtdMax o hs lu s r : ℚ) ≤ (hs - s.tempo_usado) / r.tempo_h := by
    simp only [qtdMax] at hq ⊢
    by_cases hu : 0 < r.uti
    · rw [if_pos hu] at hq ⊢
      exact (intPy_cast_le hq).trans ((min_le_left _ _).trans (min_le_right _ _))
    · rw [if_neg hu] at hq ⊢
      exact (intPy_cast_le hq).trans (min_le_right _ _)
  have h3 := (le_div_iff₀ ht).mp h2
  linarith

lemma qtdMax_uti {o hs lu : ℚ} {s : Estado} {r : Row}
    (hq : 0 < qtdMax o hs lu s r) (h3 : s.uti_usada ≤ lu) :
    s.uti_usada + (qtdMax o hs lu s r : ℚ) * r.uti ≤ lu := by
  by_cases hu : 0 < r.uti
  · have hle : (qtdMax o hs lu s r : ℚ) ≤ ((⌊(lu - s.uti_usada) / r.uti⌋ : ℤ) : ℚ) := by
      simp only [qtdMax] at hq ⊢
      rw [if_pos hu] at hq ⊢
      exact (intPy_cast_le hq).trans (min_le_right _ _)
    have h2 : (qtdMax o hs lu s r : ℚ) ≤ (lu - s.uti_usada) / r.uti :=
      hle.trans (Int.floor_le _)
    have h4 := (le_div_iff₀ hu).mp h2
    linarith
  · push_neg at hu
    have hnn : (0 : ℚ) ≤ (qtdMax o hs lu s r : ℚ) := by exact_mod_cast hq.le
    have h4 : (qtdMax o hs lu s r : ℚ) * r.uti ≤ 0 :=
      mul_nonpos_of_nonneg_of_nonpos hnn hu
    linarith

lemma passoGuloso_pos {o hs lu : ℚ} {s : Estado} {r : Row}
    (hq : 0 < qtdMax o hs lu s r) :
    passoGuloso o hs lu s r =
      { solucao := s.solucao ++ [itemDe o hs lu s r],
        orcamento_usado := s.orcamento_usado + (qtdMax o hs lu s r : ℚ) * r.custo_r,
        tempo_usado := s.tempo_usado + (qtdMax o hs lu s r : ℚ) * r.tempo_h,
        uti_usada := s.uti_usada + (qtdMax o hs lu s r : ℚ) * r.uti,
        valor_objetivo := s.valor_objetivo + (qtdMax o hs lu s r : ℚ) * pesoCol r } := by
  simp only [passoGuloso]
  rw [if_pos hq]

lemma passoGuloso_neg {o hs lu : ℚ} {s : Estado} {r : Row}
    (hq : ¬ 0 < qtdMax o hs lu s r) :
    passoGuloso o hs lu s r = s := by
  simp only [passoGuloso]
  rw [if_neg hq]

/-! ### Invariants of the greedy loop -/

lemma foldGuloso_le (o hs lu : ℚ) (L : List Row) :
    ∀ s : Estado, (∀ r ∈ L, 0 < r.custo_r ∧ 0 < r.tempo_h) →
      s.orcamento_usado ≤ o → s.tempo_usado ≤ hs → s.uti_usada ≤ lu →
      (L.foldl (passoGuloso o hs lu) s).orcamento_usado ≤ o ∧
      (L.foldl (passoGuloso o hs lu) s).tempo_usado ≤ hs ∧
      (L.foldl (passoGuloso o hs lu) s).uti_usada ≤ lu := by
  induction L with
  | nil => intro s _ h1 h2 h3; exact ⟨h1, h2, h3⟩
  | cons r L ih =>
    intro s hpos h1 h2 h3
    have hr := hpos r (List.mem_cons_self r L)
    rw [List.foldl_cons]
    have hstep : (passoGuloso o hs lu s r).orcamento_usado ≤ o ∧
        (passoGuloso o hs lu s r).tempo_usado ≤ hs ∧
        (passoGuloso o hs lu s r).uti_usada ≤ lu := by
      by_cases hq : 0 < qtdMax o hs lu s r
      · rw [passoGuloso_pos hq]
        exact ⟨qtdMax_orc hr.1 hq, qtdMax_tempo hr.2 hq, qtdMax_uti hq h3⟩
      · rw [passoGuloso_neg hq]
        exact ⟨h1, h2, h3⟩
    exact ih (passoGuloso o hs lu s r)
      (fun x hm => hpos x (List.mem_cons_of_mem _ hm)) hstep.1 hstep.2.1 hstep.2.2

lemma foldGuloso_solucao (o hs lu : ℚ) (L : List Row) :
    ∀ s : Estado,
      ∃ novo : List ItemSol,
        (L.foldl (passoGuloso o hs lu) s).solucao = s.solucao ++ novo ∧
        (∀ it ∈ novo, 0 < it.quantidade) ∧
        somaItens ItemSol.custo_total_r novo
          = (L.foldl (passoGuloso o hs lu) s).orcamento_usado - s.orcamento_usado ∧
        somaItens ItemSol.tempo_total_h novo
          = (L.foldl (passoGuloso o hs lu) s).tempo_usado - s.tempo_usado ∧
        somaItens ItemSol.leitos_uti novo
          = (L.foldl (passoGuloso o hs lu) s).uti_usada - s.uti_usada := by
  induction L with
  | nil =>
    intro s
    exact ⟨[], by simp, by simp, by simp [somaItens], by simp [somaItens], by simp [somaItens]⟩
  | cons r L ih =>
    intro s
    rw [List.foldl_cons]
    by_cases hq : 0 < qtdMax o hs lu s r
    · obtain ⟨novo, hsol, hposit, hc, ht, hu⟩ := ih (passoGuloso o hs lu s r)
      refine ⟨itemDe o hs lu s r :: novo, ?_, ?_, ?_, ?_, ?_⟩
      · rw [hsol, passoGuloso_pos hq]
        simp
      · intro it hm
        rcases List.mem_cons.mp hm with hEq | hm2
        · rw [hEq]; exact hq
        · exact hposit it hm2
      · rw [passoGuloso_pos hq] at hc ⊢
        simp only [somaItens, List.map_cons, List.sum_cons, itemDe] at hc ⊢
        rw [hc]
        ring
      · rw [passoGuloso_pos hq] at ht ⊢
        simp only [somaItens, List.map_cons, List.sum_cons, itemDe] at ht ⊢
        rw [ht]
        ring
      · rw [passoGuloso_pos hq] at hu ⊢
        simp only [somaItens, List.map_cons, List.sum_cons, itemDe] at hu ⊢
        rw [hu]
        ring
    · rw [passoGuloso_neg hq]
      exact ih s

lemma foldGuloso_vector (o hs lu : ℚ) (L : List Row) :
    ∀ s : Estado,
      ∃ y : List ℕ, y.length = L.length ∧
        somaPond (fun r => r.custo_r) L y
          = (L.foldl (passoGuloso o hs lu) s).orcamento_usado - s.orcamento_usado ∧
        somaPond (fun r => r.tempo_h) L y
          = (L.foldl (passoGuloso o hs lu) s).tempo_usado - s.tempo_usado ∧
        somaPond (fun r => r.uti) L y
          = (L.foldl (passoGuloso o hs lu) s).uti_usada - s.uti_usada ∧
        somaPond pesoCol L y
          = (L.foldl (passoGuloso o hs lu) s).valor_objetivo - s.valor_objetivo := by
  induction L with
  | nil =>
    intro s
    exact ⟨[], rfl, by simp [somaPond], by simp [somaPond], by simp [somaPond],
      by simp [somaPond]⟩
  | cons r L ih =>
    intro s
    rw [List.foldl_cons]
    by_cases hq : 0 < qtdMax o hs lu s r
    · obtain ⟨y, hl, h1, h2, h3, h4⟩ := ih (passoGuloso o hs lu s r)
      have hcast : (((qtdMax o hs lu s r).toNat : ℕ) : ℚ) = ((qtdMax o hs lu s r : ℤ) : ℚ) := by
        have h5 := Int.toNat_of_nonneg hq.le
        exact_mod_cast congrArg (fun z : ℤ => (z : ℚ)) h5
      refine ⟨(qtdMax o hs lu s r).toNat :: y, by simp [hl], ?_, ?_, ?_, ?_⟩
      · rw [passoGuloso_pos hq] at h1 ⊢
        simp only [somaPond, hcast, h1]
        ring
      · rw [passoGuloso_pos hq] at h2 ⊢
        simp only [somaPond, hcast, h2]
        ring
      · rw [passoGuloso_pos hq] at h3 ⊢
        simp only [somaPond, hcast, h3]
        ring
      · rw [passoGuloso_pos hq] at h4 ⊢
        simp only [somaPond, hcast, h4]
        ring
    · rw [passoGuloso_neg hq]
      obtain ⟨y, hl, h1, h2, h3, h4⟩ := ih s
      refine ⟨0 :: y, by simp [hl], ?_, ?_, ?_, ?_⟩ <;>
        simp [somaPond, h1, h2, h3, h4]

/-! ### Sorting is a permutation, and weighted sums transfer along permutations -/

lemma insereDesc_perm (a : Row) (l : List Row) : (insereDesc a l).Perm (a :: l) := by
  induction l with
  | nil => exact List.Perm.refl _
  | cons b bs ih =>
    simp only [insereDesc]
    by_cases h : pesoCol b < pesoCol a
    · rw [if_pos h]
    · rw [if_neg h]
      exact (List.Perm.cons b ih).trans (List.Perm.swap a b bs)

lemma ordenaDesc_perm (l : List Row) : (ordenaDesc l).Perm l := by
  induction l with
  | nil => exact List.Perm.refl _
  | cons a resto ih =>
    simp only [ordenaDesc]
    exact (insereDesc_perm a (ordenaDesc resto)).trans (List.Perm.cons a ih)

lemma perm_transfer {L1 L2 : List Row} (p : L1.Perm L2) :
    ∀ y : List ℕ, y.length = L1.length →
      ∃ z : List ℕ, z.length = L2.length ∧
        ∀ f : Row → ℚ, somaPond f L2 z = somaPond f L1 y := by
  induction p with
  | nil =>
    intro y hy
    rw [List.length_eq_zero.mp hy]
    exact ⟨[], rfl, fun f => rfl⟩
  | cons x p ih =>
    intro y hy
    cases y with
    | nil => simp at hy
    | cons q ys =>
      obtain ⟨z, hz, hsum⟩ := ih ys (by simpa using hy)
      exact ⟨q :: z, by simp [hz], fun f => by simp only [somaPond, hsum f]⟩
  | swap a b l =>
    intro y hy
    cases y with
    | nil => simp at hy
    | cons q1 t =>
      cases t with
      | nil => simp at hy
      | cons q2 ys =>
        refine ⟨q2 :: q1 :: ys, by simpa using hy, fun f => ?_⟩
        simp only [somaPond]
        ring
  | trans p1 p2 ih1 ih2 =>
    intro y hy
    obtain ⟨z1, hz1, hs1⟩ := ih1 y hy
    obtain ⟨z2, hz2, hs2⟩ := ih2 z1 hz1
    exact ⟨z2, hz2, fun f => (hs2 f).trans (hs1 f)⟩

lemma somaPond_map (f : Row → ℚ) (g : Row → Row) (l : List Row) :
    ∀ y, somaPond f (l.map g) y = somaPond (fun r => f (g r)) l y := by
  induction l with
  | nil => intro y; cases y <;> rfl
  | cons r rs ih =>
    intro y
    cases y with
    | nil => rfl
    | cons q ys => simp only [List.map_cons, somaPond, ih ys]

lemma somaPond_replicate_zero (f : Row → ℚ) (l : List Row) :
    somaPond f l (List.replicate l.length 0) = 0 := by
  induction l with
  | nil => rfl
  | cons r rs ih => simp [somaPond, List.replicate_succ, ih]

lemma somaPond_nonneg (f : Row → ℚ) (l : List Row) :
    ∀ y, (∀ r ∈ l, 0 ≤ f r) → 0 ≤ somaPond f l y := by
  induction l with
  | nil => intro y _; cases y <;> simp [somaPond]
  | cons r rs ih =>
    intro y hf
    cases y with
    | nil => simp [somaPond]
    | cons q ys =>
      have h1 : 0 ≤ f r * (q : ℚ) :=
        mul_nonneg (hf r (List.mem_cons_self r rs)) (by positivity)
      have h2 := ih ys (fun x hm => hf x (List.mem_cons_of_mem _ hm))
      simp only [somaPond]
      linarith

/-- The two source files build the objective weights with the same
three-way dispatch; both functions are literally the same map. -/
lemma pesoGuloso_eq_pesoPulp : pesoGuloso = pesoPulp := rfl

lemma atribuiPeso_eq (crit : String) (dfIn : List Row) :
    atribuiPeso crit dfIn = dfIn.map fun r => { r with peso := some (pesoGuloso crit r) } := by
  by_cases h1 : crit = "gravidade"
  · simp [atribuiPeso, pesoGuloso, h1]
  · by_cases h2 : crit = "incidencia"
    · simp [atribuiPeso, pesoGuloso, h1, h2]
    · simp [atribuiPeso, pesoGuloso, h1, h2]

/-- The final loop state of a greedy run (a named abbreviation of what the
body of resolver_simplex_guloso computes, used to state the lemmas). -/
def estadoFinal (dfIn : List Row) (orcamento horas_sala leitos_uti : ℚ) (crit : String) : Estado :=
  (ordenaDesc (atribuiPeso crit dfIn)).foldl
    (passoGuloso orcamento horas_sala leitos_uti) ⟨[], 0, 0, 0, 0⟩

lemma resolver_eq (dfIn : List Row) (o hs lu : ℚ) (crit : String) :
    resolver_simplex_guloso dfIn o hs lu crit =
      { dfFinal := atribuiPeso crit dfIn,
        solucao := (estadoFinal dfIn o hs lu crit).solucao,
        metricas := ⟨(estadoFinal dfIn o hs lu crit).valor_objetivo,
          (estadoFinal dfIn o hs lu crit).orcamento_usado,
          (estadoFinal dfIn o hs lu crit).tempo_usado,
          (estadoFinal dfIn o hs lu crit).uti_usada,
          somaQuantidades (estadoFinal dfIn o hs lu crit).solucao⟩ } := rfl

lemma estadoFinal_le (dfIn : List Row) (o hs lu : ℚ) (crit : String)
    (hpos : ∀ r ∈ dfIn, 0 < r.custo_r ∧ 0 < r.tempo_h)
    (ho : 0 ≤ o) (hh : 0 ≤ hs) (hl : 0 ≤ lu) :
    (estadoFinal dfIn o hs lu crit).orcamento_usado ≤ o ∧
    (estadoFinal dfIn o hs lu crit).tempo_usado ≤ hs ∧
    (estadoFinal dfIn o hs lu crit).uti_usada ≤ lu := by
  have hposL : ∀ r ∈ ordenaDesc (atribuiPeso crit dfIn), 0 < r.custo_r ∧ 0 < r.tempo_h := by
    intro r hm
    have hm2 : r ∈ atribuiPeso crit dfIn := (ordenaDesc_perm _).mem_iff.mp hm
    rw [atribuiPeso_eq] at hm2
    obtain ⟨r0, hr0, hEq⟩ := List.mem_map.mp hm2
    have hc : r.custo_r = r0.custo_r := by rw [← hEq]
    have ht : r.tempo_h = r0.tempo_h := by rw [← hEq]
    rw [hc, ht]
    exact hpos r0 hr0
  exact foldGuloso_le o hs lu _ _ hposL ho hh hl

/-- Bridge between the two programs: the usage and objective figures the
greedy run reports are exactly those of an integer vector aligned with the
original catalog, and that vector is feasible for the ILP whenever the catalog
is valid and the capacities are non-negative. -/
lemma guloso_realizavel (dfIn : List Row) (o hs lu : ℚ) (crit : String)
    (hpos : ∀ r ∈ dfIn, 0 < r.custo_r ∧ 0 < r.tempo_h)
    (ho : 0 ≤ o) (hh : 0 ≤ hs) (hl : 0 ≤ lu) :
    ∃ y : List ℕ, atende dfIn o hs lu y ∧
      valorObj crit dfIn y
        = (resolver_simplex_guloso dfIn o hs lu crit).metricas.valor_objetivo := by
  obtain ⟨y1, hy1len, hy1c, hy1t, hy1u, hy1v⟩ :=
    foldGuloso_vector o hs lu (ordenaDesc (atribuiPeso crit dfIn)) ⟨[], 0, 0, 0, 0⟩
  obtain ⟨z, hzlen, hz⟩ := perm_transfer (ordenaDesc_perm (atribuiPeso crit dfIn)) y1 hy1len
  have key : ∀ f : Row → ℚ,
      somaPond (fun r => f { r with peso := some (pesoGuloso crit r) }) dfIn z
        = somaPond f (ordenaDesc (atribuiPeso crit dfIn)) y1 := by
    intro f
    calc somaPond (fun r => f { r with peso := some (pesoGuloso crit r) }) dfIn z
        = somaPond f (dfIn.map fun r => { r with peso := some (pesoGuloso crit r) }) z :=
          (somaPond_map f _ dfIn z).symm
      _ = somaPond f (atribuiPeso crit dfIn) z := by rw [← atribuiPeso_eq]
      _ = somaPond f (ordenaDesc (atribuiPeso crit dfIn)) y1 := hz f
  have hc2 : somaPond (fun r => r.custo_r) dfIn z
      = somaPond (fun r => r.custo_r) (ordenaDesc (atribuiPeso crit dfIn)) y1 :=
    key fun r => r.custo_r
  have ht2 : somaPond (fun r => r.tempo_h) dfIn z
      = somaPond (fun r => r.tempo_h) (ordenaDesc (atribuiPeso crit dfIn)) y1 :=
    key fun r => r.tempo_h
  have hu2 : somaPond (fun r => r.uti) dfIn z
      = somaPond (fun r => r.uti) (ordenaDesc (atribuiPeso crit dfIn)) y1 :=
    key fun r => r.uti
  have hv2 : somaPond (pesoPulp crit) dfIn z
      = somaPond pesoCol (ordenaDesc (atribuiPeso crit dfIn)) y1 :=
    key pesoCol
  have hzlen2 : z.length = dfIn.length := by
    rw [hzlen, atribuiPeso_eq, List.length_map]
  have hle := estadoFinal_le dfIn o hs lu crit hpos ho hh hl
  refine ⟨z, ⟨hzlen2, ?_, ?_, ?_⟩, ?_⟩
  · rw [hc2, hy1c]
    have h9 := hle.1
    simp only [estadoFinal] at h9
    simpa using h9
  · rw [ht2, hy1t]
    have h9 := hle.2.1
    simp only [estadoFinal] at h9
    simpa using h9
  · rw [hu2, hy1u]
    have h9 := hle.2.2
    simp only [estadoFinal] at h9
    simpa using h9
  · rw [valorObj, hv2, hy1v, resolver_eq]
    simp [estadoFinal]

/-! ### Concrete instances used to instantiate and to refute claims -/

/-- A minimal valid one-row catalog (cost 200, one hour, needs ICU,
severity 1) used to instantiate the universally quantified theorems at a
concrete input. -/
def dfUm : List Row := [mkRow "A1" "Procedimento A" 1 1 200 1 0]

/-- The didactic single-resource bottleneck instance of
otimizacao_onco_simplex.py lines 311-355: three candidates with weights
10, 8, 6 (taken as severities), durations 6, 3, 2 hours, ICU needs 1, 1, 0,
room capacity 6 hours and one ICU bed.  The narrative fixes no unit costs and
no budget, so the embedding uses unit cost 1 and budget 100, which can never
bind (every duration is at least 2 hours, so at most 3 units fit into the
6 room-hours, costing at most 3). -/
def dfExemplo : List Row :=
  [ mkRow "E1" "Gastrectomia - Sr. Jose" 10 6 1 1 0,
    mkRow "E2" "Mastectomia - Dona Ana" 8 3 1 1 0,
    mkRow "E3" "Tireoidectomia - Sr. Carlos" 6 2 1 0 0 ]

lemma dfUm_pos : ∀ r ∈ dfUm, 0 < r.custo_r ∧ 0 < r.tempo_h := by
  intro r hr
  simp only [dfUm, List.mem_singleton] at hr
  rw [hr]
  norm_num [mkRow]

lemma dfUm_custo_pos : ∀ r ∈ dfUm, 0 < r.custo_r := fun r hr => (dfUm_pos r hr).1

lemma dfExemplo_pos : ∀ r ∈ dfExemplo, 0 < r.custo_r ∧ 0 < r.tempo_h := by
  intro r hr
  simp only [dfExemplo, List.mem_cons, List.not_mem_nil, or_false] at hr
  rcases hr with h | h | h <;> rw [h] <;> norm_num [mkRow]

lemma atende_exemplo_003 : atende dfExemplo 100 6 1 [0, 0, 3] := by
  refine ⟨rfl, ?_, ?_, ?_⟩ <;> norm_num [somaPond, dfExemplo, mkRow]

lemma valorObj_exemplo_003 : valorObj "gravidade" dfExemplo [0, 0, 3] = 18 := by
  norm_num [valorObj, somaPond, pesoPulp, dfExemplo, mkRow]

/-- On the didactic instance, three Tireoidectomias are an optimal ILP
solution: any feasible vector [a, b, c] has 6a + 3b + 2c at most 6, and the
objective 10a + 8b + 6c is coefficient-wise dominated by three times the
room-hours row, hence at most 18. -/
lemma otimaExemplo : solucaoOtima dfExemplo 100 6 1 "gravidade" [0, 0, 3] := by
  refine ⟨atende_exemplo_003, ?_⟩
  intro y hy
  obtain ⟨hlen, hc, ht, hu⟩ := hy
  rw [valorObj_exemplo_003]
  rcases y with _ | ⟨a, y⟩
  · simp [dfExemplo] at hlen
  rcases y with _ | ⟨b, y⟩
  · simp [dfExemplo] at hlen
  rcases y with _ | ⟨c, y⟩
  · simp [dfExemplo] at hlen
  rcases y with _ | ⟨d, y⟩
  swap
  · simp [dfExemplo] at hlen
  have ha : (0:ℚ) ≤ (a : ℚ) := Nat.cast_nonneg a
  have hb : (0:ℚ) ≤ (b : ℚ) := Nat.cast_nonneg b
  have hcn : (0:ℚ) ≤ (c : ℚ) := Nat.cast_nonneg c
  norm_num [somaPond, dfExemplo, mkRow] at ht
  norm_num [valorObj, somaPond, pesoPulp, dfExemplo, mkRow]
  linarith

lemma otimaUm {o : ℚ} (ho : 200 ≤ o) : solucaoOtima dfUm o 1 1 "gravidade" [1] := by
  constructor
  · refine ⟨rfl, ?_, ?_, ?_⟩ <;> norm_num [somaPond, dfUm, mkRow]
    linarith
  · intro y hy
    obtain ⟨hlen, hc, ht, hu⟩ := hy
    rcases y with _ | ⟨a, y⟩
    · simp [dfUm] at hlen
    rcases y with _ | ⟨b, y⟩
    swap
    · simp [dfUm] at hlen
    norm_num [somaPond, dfUm, mkRow] at ht
    norm_num [valorObj, somaPond, pesoPulp, dfUm, mkRow]
    exact ht

/-- Direct evaluation of the greedy run on the didactic instance: it takes
one Gastrectomia (weight 10, filling the 6 room-hours) and nothing else, so
it reports objective value 10. -/
lemma guloso_exemplo_val :
    (resolver_simplex_guloso dfExemplo 100 6 1 "gravidade").metricas.valor_objetivo = 10 := by
  norm_num [resolver_eq, estadoFinal, dfExemplo, mkRow, atribuiPeso, ordenaDesc, insereDesc,
    passoGuloso, itemDe, qtdMax, intPy, pesoCol, min_def, somaQuantidades]

/-- Direct evaluation: with a 100-unit budget no single unit of the 200-cost
procedure fits, so the greedy returns the empty solution list (the driver
then prints the "no viable solution" message). -/
lemma guloso_dfUm_orc100 :
    (resolver_simplex_guloso dfUm 100 480 15 "gravidade").solucao = [] := by
  norm_num [resolver_eq, estadoFinal, dfUm, mkRow, atribuiPeso, ordenaDesc, insereDesc,
    passoGuloso, itemDe, qtdMax, intPy, pesoCol, min_def]

/-! ### Helpers for the negative-envelope behaviour -/

lemma intPy_nonpos {q : ℚ} (h : q < 0) : intPy q ≤ 0 := by
  unfold intPy
  rw [if_pos h]
  exact Int.ceil_le.mpr (by exact_mod_cast h.le)

lemma qtdMax_nonpos_of_neg_orc (o hs lu : ℚ) (s : Estado) (r : Row)
    (ho : o < 0) (hc : 0 < r.custo_r) (h0 : s.orcamento_usado = 0) :
    qtdMax o hs lu s r ≤ 0 := by
  have hdiv : (o - s.orcamento_usado) / r.custo_r < 0 := by
    rw [h0, sub_zero]
    exact div_neg_of_neg_of_pos ho hc
  have hfl : ((⌊(o - s.orcamento_usado) / r.custo_r⌋ : ℤ) : ℚ) < 0 := by
    calc ((⌊(o - s.orcamento_usado) / r.custo_r⌋ : ℤ) : ℚ)
        ≤ (o - s.orcamento_usado) / r.custo_r := Int.floor_le _
      _ < 0 := hdiv
  simp only [qtdMax]
  by_cases hu : 0 < r.uti
  · rw [if_pos hu]
    exact intPy_nonpos (lt_of_le_of_lt ((min_le_left _ _).trans (min_le_left _ _)) hfl)
  · rw [if_neg hu]
    exact intPy_nonpos (lt_of_le_of_lt (min_le_left _ _) hfl)

lemma foldGuloso_nada {o hs lu : ℚ} (ho : o < 0) (L : List Row)
    (hc : ∀ r ∈ L, 0 < r.custo_r) :
    L.foldl (passoGuloso o hs lu) ⟨[], 0, 0, 0, 0⟩ = ⟨[], 0, 0, 0, 0⟩ := by
  induction L with
  | nil => rfl
  | cons r L ih =>
    rw [List.foldl_cons, passoGuloso_neg (by
      have h9 := qtdMax_nonpos_of_neg_orc o hs lu ⟨[], 0, 0, 0, 0⟩ r
        ho (hc r (List.mem_cons_self r L)) rfl
      omega)]
    exact ih fun x hm => hc x (List.mem_cons_of_mem _ hm)

lemma custoPos_prep {crit : String} {dfIn : List Row}
    (hc : ∀ r ∈ dfIn, 0 < r.custo_r) :
    ∀ r ∈ ordenaDesc (atribuiPeso crit dfIn), 0 < r.custo_r := by
  intro r hm
  have hm2 : r ∈ atribuiPeso crit dfIn := (ordenaDesc_perm _).mem_iff.mp hm
  rw [atribuiPeso_eq] at hm2
  obtain ⟨r0, hr0, hEq⟩ := List.mem_map.mp hm2
  have h1 : r.custo_r = r0.custo_r := by rw [← hEq]
  rw [h1]
  exact hc r0 hr0

lemma statusInfeasible_orc_neg (dfIn : List Row) {o : ℚ} (hs lu : ℚ) (ho : o < 0)
    (hc : ∀ r ∈ dfIn, 0 < r.custo_r) : statusInfeasible dfIn o hs lu := by
  rintro ⟨x, hlen, hcx, -, -⟩
  have h0 := somaPond_nonneg (fun r => r.custo_r) dfIn x fun r hm => (hc r hm).le
  linarith

/-! ### Helpers for boundedness of the objective -/

/-- The largest weight-to-duration ratio over the catalog (0 for the empty
catalog): every feasible objective value is at most this ratio times the
room-hours ceiling. -/
def limitePeso (crit : String) (dfIn : List Row) : ℚ :=
  dfIn.foldr (fun r k => max (pesoPulp crit r / r.tempo_h) k) 0

lemma limitePeso_nonneg (crit : String) (dfIn : List Row) : 0 ≤ limitePeso crit dfIn := by
  induction dfIn with
  | nil => exact le_refl 0
  | cons r l ih => exact ih.trans (le_max_right _ _)

lemma limitePeso_ge (crit : String) {dfIn : List Row} {r : Row} (hm : r ∈ dfIn) :
    pesoPulp crit r / r.tempo_h ≤ limitePeso crit dfIn := by
  induction dfIn with
  | nil => simp at hm
  | cons a l ih =>
    rcases List.mem_cons.mp hm with h | h
    · rw [h]
      exact le_max_left _ _
    · exact (ih h).trans (le_max_right _ _)

lemma somaPond_peso_le (crit : String) (dfIn : List Row) (K : ℚ)
    (hKr : ∀ r ∈ dfIn, pesoPulp crit r ≤ K * r.tempo_h) :
    ∀ x, somaPond (pesoPulp crit) dfIn x ≤ K * somaPond (fun r => r.tempo_h) dfIn x := by
  induction dfIn with
  | nil => intro x; cases x <;> simp [somaPond]
  | cons r l ih =>
    intro x
    cases x with
    | nil => simp [somaPond]
    | cons q xs =>
      have h1 : pesoPulp crit r * (q : ℚ) ≤ K * r.tempo_h * (q : ℚ) :=
        mul_le_mul_of_nonneg_right (hKr r (List.mem_cons_self r l)) (by positivity)
      have h2 := ih (fun a hm => hKr a (List.mem_cons_of_mem _ hm)) xs
      simp only [somaPond]
      calc pesoPulp crit r * (q : ℚ) + somaPond (pesoPulp crit) l xs
          ≤ K * r.tempo_h * (q : ℚ) + K * somaPond (fun a => a.tempo_h) l xs := by linarith
        _ = K * (r.tempo_h * (q : ℚ) + somaPond (fun a => a.tempo_h) l xs) := by ring

/-! ### The claims -/

/-- C1: every allocation the exact solver returns with Optimal status
satisfies the three capacity constraints (its quantities are non-negative
integers by the type List ℕ of the decision vector), and so does every
allocation the greedy heuristic returns: each reported item carries a
positive integer Quantidade, and the per-item cost, room-hour and ICU totals
sum to at most the respective capacity.  Catalogs carry strictly positive
unit costs and durations and envelopes non-negative capacities, the domains
the data model prescribes. -/
theorem restricoes_respeitadas (dfIn : List Row) (o hs lu : ℚ) (crit : String)
    (hpos : ∀ r ∈ dfIn, 0 < r.custo_r ∧ 0 < r.tempo_h)
    (ho : 0 ≤ o) (hh : 0 ≤ hs) (hl : 0 ≤ lu) :
    (∀ x, solucaoOtima dfIn o hs lu crit x →
      somaPond (fun r => r.custo_r) dfIn x ≤ o ∧
      somaPond (fun r => r.tempo_h) dfIn x ≤ hs ∧
      somaPond (fun r => r.uti) dfIn x ≤ lu) ∧
    somaItens ItemSol.custo_total_r (resolver_simplex_guloso dfIn o hs lu crit).solucao ≤ o ∧
    somaItens ItemSol.tempo_total_h (resolver_simplex_guloso dfIn o hs lu crit).solucao ≤ hs ∧
    somaItens ItemSol.leitos_uti (resolver_simplex_guloso dfIn o hs lu crit).solucao ≤ lu ∧
    ∀ it ∈ (resolver_simplex_guloso dfIn o hs lu crit).solucao, 0 < it.quantidade := by
  refine ⟨fun x hx => ⟨hx.1.2.1, hx.1.2.2.1, hx.1.2.2.2⟩, ?_⟩
  have hle := estadoFinal_le dfIn o hs lu crit hpos ho hh hl
  obtain ⟨novo, hsol, hposit, hc, ht, hu⟩ :=
    foldGuloso_solucao o hs lu (ordenaDesc (atribuiPeso crit dfIn)) ⟨[], 0, 0, 0, 0⟩
  have hsol2 : (estadoFinal dfIn o hs lu crit).solucao = novo := by
    have h9 : (estadoFinal dfIn o hs lu crit).solucao = [] ++ novo := hsol
    simpa using h9
  have hres : (resolver_simplex_guloso dfIn o hs lu crit).solucao = novo := by
    rw [resolver_eq]
    exact hsol2
  rw [hres]
  have hc2 : somaItens ItemSol.custo_total_r novo
      = (estadoFinal dfIn o hs lu crit).orcamento_usado - 0 := hc
  have ht2 : somaItens ItemSol.tempo_total_h novo
      = (estadoFinal dfIn o hs lu crit).tempo_usado - 0 := ht
  have hu2 : somaItens ItemSol.leitos_uti novo
      = (estadoFinal dfIn o hs lu crit).uti_usada - 0 := hu
  rw [sub_zero] at hc2 ht2 hu2
  exact ⟨by rw [hc2]; exact hle.1, by rw [ht2]; exact hle.2.1,
    by rw [hu2]; exact hle.2.2, hposit⟩

/-- C1 applied at a concrete input: the one-row catalog with envelope
(budget 200, 1 room-hour, 1 ICU bed) and the severity criterion. -/
theorem restricoes_respeitadas_aplicado :
    (∀ x, solucaoOtima dfUm 200 1 1 "gravidade" x →
      somaPond (fun r => r.custo_r) dfUm x ≤ 200 ∧
      somaPond (fun r => r.tempo_h) dfUm x ≤ 1 ∧
      somaPond (fun r => r.uti) dfUm x ≤ 1) ∧
    somaItens ItemSol.custo_total_r (resolver_simplex_guloso dfUm 200 1 1 "gravidade").solucao
      ≤ 200 ∧
    somaItens ItemSol.tempo_total_h (resolver_simplex_guloso dfUm 200 1 1 "gravidade").solucao
      ≤ 1 ∧
    somaItens ItemSol.leitos_uti (resolver_simplex_guloso dfUm 200 1 1 "gravidade").solucao
      ≤ 1 ∧
    ∀ it ∈ (resolver_simplex_guloso dfUm 200 1 1 "gravidade").solucao, 0 < it.quantidade :=
  restricoes_respeitadas dfUm 200 1 1 "gravidade" dfUm_pos
    (by norm_num) (by norm_num) (by norm_num)

/-- C2 is false of the ILP on the stated data: one unit each of the second
and third procedures is feasible - in particular it does NOT violate the ICU
constraint, since the third candidate needs no ICU bed (usage 1 of 1) - and
its objective value 14 beats the value 10 of one unit of the first, so one
unit of the first procedure is not an optimal solution. -/
theorem exemplo_didatico_refutado :
    atende dfExemplo 100 6 1 [0, 1, 1] ∧
    somaPond (fun r => r.uti) dfExemplo [0, 1, 1] ≤ 1 ∧
    valorObj "gravidade" dfExemplo [0, 1, 1] = 14 ∧
    ¬ solucaoOtima dfExemplo 100 6 1 "gravidade" [1, 0, 0] := by
  refine ⟨⟨rfl, ?_, ?_, ?_⟩, ?_, ?_, ?_⟩
  · norm_num [somaPond, dfExemplo, mkRow]
  · norm_num [somaPond, dfExemplo, mkRow]
  · norm_num [somaPond, dfExemplo, mkRow]
  · norm_num [somaPond, dfExemplo, mkRow]
  · norm_num [valorObj, somaPond, pesoPulp, dfExemplo, mkRow]
  · intro hopt
    have h1 := hopt.2 [0, 1, 1]
      ⟨rfl, by norm_num [somaPond, dfExemplo, mkRow], by norm_num [somaPond, dfExemplo, mkRow],
        by norm_num [somaPond, dfExemplo, mkRow]⟩
    norm_num [valorObj, somaPond, pesoPulp, dfExemplo, mkRow] at h1

/-- C2 (amended): on the didactic instance the ILP optimum is three units of
the third procedure (the only one needing no ICU bed) with objective value
18; one unit of the first procedure is feasible with value 10 but not
optimal, and one unit each of the second and third is feasible with value
14. -/
theorem exemplo_didatico_otimo_real :
    solucaoOtima dfExemplo 100 6 1 "gravidade" [0, 0, 3] ∧
    valorObj "gravidade" dfExemplo [0, 0, 3] = 18 ∧
    atende dfExemplo 100 6 1 [1, 0, 0] ∧
    valorObj "gravidade" dfExemplo [1, 0, 0] = 10 := by
  refine ⟨otimaExemplo, valorObj_exemplo_003, ⟨rfl, ?_, ?_, ?_⟩, ?_⟩ <;>
    norm_num [valorObj, somaPond, pesoPulp, dfExemplo, mkRow]

/-- C3 as stated is false of the greedy reporting path: on a valid one-row
catalog with all capacities non-negative (budget 100, 480 room-hours, 15 ICU
beds) no single procedure fits the budget, the greedy returns no item and
the driver therefore prints that no viable solution exists, yet the zero
allocation satisfies every constraint. -/
theorem viavel_mas_reportado_inviavel :
    reportaInviavel (resolver_simplex_guloso dfUm 100 480 15 "gravidade") = true ∧
    atende dfUm 100 480 15 [0] := by
  constructor
  · rw [reportaInviavel, guloso_dfUm_orc100]
    rfl
  · refine ⟨rfl, ?_, ?_, ?_⟩ <;> norm_num [somaPond, dfUm, mkRow]

/-- C3 (amended): over valid catalogs and non-negative envelopes the all-zero
vector always satisfies the three constraints with objective value 0, so the
exact solve is never Infeasible; the greedy driver, however, does report
absence of a viable solution whenever no single procedure fits (the
counterexample theorem exhibits this). -/
theorem alocacao_zero_viavel (dfIn : List Row) (o hs lu : ℚ) (crit : String)
    (hpos : ∀ r ∈ dfIn, 0 < r.custo_r ∧ 0 < r.tempo_h)
    (ho : 0 ≤ o) (hh : 0 ≤ hs) (hl : 0 ≤ lu) :
    atende dfIn o hs lu (List.replicate dfIn.length 0) ∧
    valorObj crit dfIn (List.replicate dfIn.length 0) = 0 ∧
    ¬ statusInfeasible dfIn o hs lu := by
  have hz : atende dfIn o hs lu (List.replicate dfIn.length 0) := by
    refine ⟨List.length_replicate _ _, ?_, ?_, ?_⟩ <;>
      rw [somaPond_replicate_zero] <;> assumption
  exact ⟨hz, somaPond_replicate_zero _ _, fun hinf => hinf ⟨_, hz⟩⟩

/-- C3 (amended) applied at a concrete input. -/
theorem alocacao_zero_viavel_aplicada :
    atende dfUm 200 1 1 (List.replicate dfUm.length 0) ∧
    valorObj "gravidade" dfUm (List.replicate dfUm.length 0) = 0 ∧
    ¬ statusInfeasible dfUm 200 1 1 :=
  alocacao_zero_viavel dfUm 200 1 1 "gravidade" dfUm_pos
    (by norm_num) (by norm_num) (by norm_num)

/-- C4: the exact solver's objective value is at least the greedy's on every
valid catalog, non-negative envelope and criterion; and the inequality is
strict on a constructible input - on the didactic bottleneck instance the
exact optimum [0, 0, 3] is worth 18 while the greedy, spending the scarce
room hours on the heaviest procedure first, reports only 10. -/
theorem dominancia_exato_sobre_guloso (dfIn : List Row) (o hs lu : ℚ) (crit : String)
    (hpos : ∀ r ∈ dfIn, 0 < r.custo_r ∧ 0 < r.tempo_h)
    (ho : 0 ≤ o) (hh : 0 ≤ hs) (hl : 0 ≤ lu)
    (x : List ℕ) (hx : solucaoOtima dfIn o hs lu crit x) :
    (resolver_simplex_guloso dfIn o hs lu crit).metricas.valor_objetivo
      ≤ valorObj crit dfIn x ∧
    solucaoOtima dfExemplo 100 6 1 "gravidade" [0, 0, 3] ∧
    (resolver_simplex_guloso dfExemplo 100 6 1 "gravidade").metricas.valor_objetivo
      < valorObj "gravidade" dfExemplo [0, 0, 3] := by
  refine ⟨?_, otimaExemplo, ?_⟩
  · obtain ⟨y, hy, hval⟩ := guloso_realizavel dfIn o hs lu crit hpos ho hh hl
    rw [← hval]
    exact hx.2 y hy
  · rw [guloso_exemplo_val, valorObj_exemplo_003]
    norm_num

/-- C4 applied at the didactic instance with its exact optimum. -/
theorem dominancia_exato_sobre_guloso_aplicado :
    (resolver_simplex_guloso dfExemplo 100 6 1 "gravidade").metricas.valor_objetivo
      ≤ valorObj "gravidade" dfExemplo [0, 0, 3] ∧
    solucaoOtima dfExemplo 100 6 1 "gravidade" [0, 0, 3] ∧
    (resolver_simplex_guloso dfExemplo 100 6 1 "gravidade").metricas.valor_objetivo
      < valorObj "gravidade" dfExemplo [0, 0, 3] :=
  dominancia_exato_sobre_guloso dfExemplo 100 6 1 "gravidade" dfExemplo_pos
    (by norm_num) (by norm_num) (by norm_num) [0, 0, 3] otimaExemplo

/-- C5: enlarging the capacities - in particular enlarging any single one of
budget, room-hours or ICU beds while the other two stay fixed - never
decreases the optimal objective value of the exact solve. -/
theorem monotonicidade_capacidades (dfIn : List Row) (o1 hs1 lu1 o2 hs2 lu2 : ℚ)
    (crit : String) (x1 x2 : List ℕ)
    (h1 : solucaoOtima dfIn o1 hs1 lu1 crit x1)
    (h2 : solucaoOtima dfIn o2 hs2 lu2 crit x2)
    (ho : o1 ≤ o2) (hh : hs1 ≤ hs2) (hl : lu1 ≤ lu2) :
    valorObj crit dfIn x1 ≤ valorObj crit dfIn x2 := by
  apply h2.2
  obtain ⟨hlen, hc, ht, hu⟩ := h1.1
  exact ⟨hlen, hc.trans ho, ht.trans hh, hu.trans hl⟩

/-- C5 applied: the budget grows from 200 to 400 while room-hours and ICU
beds stay fixed at 1; the vector [1] is optimal in both envelopes. -/
theorem monotonicidade_capacidades_aplicada :
    valorObj "gravidade" dfUm [1] ≤ valorObj "gravidade" dfUm [1] :=
  monotonicidade_capacidades dfUm 200 1 1 400 1 1 "gravidade" [1] [1]
    (otimaUm (by norm_num)) (otimaUm (by norm_num))
    (by norm_num) (by norm_num) (by norm_num)

/-- C6 is false: the greedy mutates the DataFrame passed to it - after the
call the frame carries a peso column it did not have before, so it is not
identical to the catalog that went in. -/
theorem guloso_muta_dataframe :
    (resolver_simplex_guloso dfUm 100 480 15 "gravidade").dfFinal ≠ dfUm := by
  intro h
  have h2 := congrArg (fun l => l.map Row.peso) h
  simp [resolver_eq, atribuiPeso, dfUm, mkRow] at h2

/-- C6 (amended): the only change the greedy makes to the catalog passed in
is writing the derived peso column; every other field of every row is
preserved exactly.  The exact solver performs no write at all (its source
only reads df, so its embedding has no catalog output), and the module-level
callers shield the shared catalog by passing df.copy() at every greedy call
site. -/
theorem guloso_so_atribui_peso (dfIn : List Row) (o hs lu : ℚ) (crit : String) :
    (resolver_simplex_guloso dfIn o hs lu crit).dfFinal
      = dfIn.map fun r => { r with peso := some (pesoGuloso crit r) } := by
  rw [resolver_eq]
  exact atribuiPeso_eq crit dfIn

/-- C7 is false: with a negative budget the greedy returns normally - the
empty solution - and the exact model's status is Infeasible; no
InvalidEnvelopeError (nor any envelope validation) exists in either source
file, so nothing fails at the boundary. -/
theorem envelope_negativo_sem_erro :
    (resolver_simplex_guloso dfUm (-1) 480 15 "gravidade").solucao = [] ∧
    statusInfeasible dfUm (-1) 480 15 := by
  constructor
  · norm_num [resolver_eq, estadoFinal, dfUm, mkRow, atribuiPeso, ordenaDesc, insereDesc,
      passoGuloso, itemDe, qtdMax, intPy, pesoCol, min_def]
  · exact statusInfeasible_orc_neg dfUm 480 15 (by norm_num) dfUm_custo_pos

/-- C7 (amended): no envelope validation exists.  On a negative budget (with
positive unit costs) the greedy runs its loop, takes nothing, and returns
the empty solution with all-zero metrics, while the exact model is
Infeasible - ordinary return values, not an InvalidEnvelopeError raised
before solver work. -/
theorem envelope_negativo_comportamento (dfIn : List Row) (o hs lu : ℚ) (crit : String)
    (ho : o < 0) (hc : ∀ r ∈ dfIn, 0 < r.custo_r) :
    (resolver_simplex_guloso dfIn o hs lu crit).solucao = [] ∧
    (resolver_simplex_guloso dfIn o hs lu crit).metricas = ⟨0, 0, 0, 0, 0⟩ ∧
    statusInfeasible dfIn o hs lu := by
  have hE : estadoFinal dfIn o hs lu crit = ⟨[], 0, 0, 0, 0⟩ :=
    foldGuloso_nada ho (ordenaDesc (atribuiPeso crit dfIn)) (custoPos_prep hc)
  refine ⟨?_, ?_, statusInfeasible_orc_neg dfIn hs lu ho hc⟩
  · simp only [resolver_eq, hE]
  · simp only [resolver_eq, hE]
    simp [somaQuantidades]

/-- C7 (amended) applied at a concrete input. -/
theorem envelope_negativo_comportamento_aplicado :
    (resolver_simplex_guloso dfUm (-1) 10 10 "gravidade").solucao = [] ∧
    (resolver_simplex_guloso dfUm (-1) 10 10 "gravidade").metricas = ⟨0, 0, 0, 0, 0⟩ ∧
    statusInfeasible dfUm (-1) 10 10 :=
  envelope_negativo_comportamento dfUm (-1) 10 10 "gravidade" (by norm_num) dfUm_custo_pos

/-- C8: with strictly positive unit costs and durations (the envelope bounds
are finite rationals by type), every feasible objective value is bounded by
the largest weight-to-duration ratio times the room-hours ceiling, so the
Unbounded outcome of the exact solve is unreachable. -/
theorem ilimitado_impossivel (dfIn : List Row) (o hs lu : ℚ) (crit : String)
    (hc : ∀ r ∈ dfIn, 0 < r.custo_r) (ht : ∀ r ∈ dfIn, 0 < r.tempo_h) :
    ¬ statusUnbounded dfIn o hs lu crit := by
  intro hU
  obtain ⟨x, hx, hgt⟩ := hU (limitePeso crit dfIn * hs)
  have hKr : ∀ r ∈ dfIn, pesoPulp crit r ≤ limitePeso crit dfIn * r.tempo_h := by
    intro r hm
    exact (div_le_iff₀ (ht r hm)).mp (limitePeso_ge crit hm)
  have h1 := somaPond_peso_le crit dfIn (limitePeso crit dfIn) hKr x
  have h2 : somaPond (fun r => r.tempo_h) dfIn x ≤ hs := hx.2.2.1
  have h3 : limitePeso crit dfIn * somaPond (fun r => r.tempo_h) dfIn x
      ≤ limitePeso crit dfIn * hs :=
    mul_le_mul_of_nonneg_left h2 (limitePeso_nonneg crit dfIn)
  have h4 : valorObj crit dfIn x ≤ limitePeso crit dfIn * hs := le_trans h1 h3
  linarith

/-- C8 applied at a concrete input. -/
theorem ilimitado_impossivel_aplicado : ¬ statusUnbounded dfUm 200 1 1 "gravidade" :=
  ilimitado_impossivel dfUm 200 1 1 "gravidade" dfUm_custo_pos
    fun r hr => (dfUm_pos r hr).2

/-- C9: the criterion-to-weight mapping of both solvers: gravidade selects
the severity score, incidencia the incidence rate, and the cost-efficiency
tag (the else branch; custo_beneficio is its commented name) selects
severity divided by unit cost scaled by the constant 10000. -/
theorem pesos_por_criterio (r : Row) :
    pesoPulp "gravidade" r = r.gravidade ∧
    pesoPulp "incidencia" r = r.incidencia_pe ∧
    pesoPulp "custo_beneficio" r = r.gravidade / r.custo_r * 10000 ∧
    pesoGuloso "gravidade" r = r.gravidade ∧
    pesoGuloso "incidencia" r = r.incidencia_pe ∧
    pesoGuloso "custo-beneficio" r = r.gravidade / r.custo_r * 10000 := by
  refine ⟨?_, ?_, ?_, ?_, ?_, ?_⟩ <;> simp [pesoPulp, pesoGuloso]

/-- The first row of the reference catalog, used as a concrete input. -/
def linhaP1 : Row := mkRow "P1" "Mastectomia (Cancer de Mama)" (85/10) (35/10) 15000 1 (362/100)

/-- C10: any criterion string other than exactly gravidade or incidencia -
misspellings and arbitrary strings included - silently falls into the
cost-efficiency else branch in both solvers; both weight functions are total,
so no error is ever raised for an unrecognized criterion. -/
theorem criterio_desconhecido_usa_custo_beneficio (s : String)
    (h1 : s ≠ "gravidade") (h2 : s ≠ "incidencia") (r : Row) :
    pesoPulp s r = r.gravidade / r.custo_r * 10000 ∧
    pesoGuloso s r = r.gravidade / r.custo_r * 10000 := by
  unfold pesoPulp pesoGuloso
  rw [if_neg h1, if_neg h2]
  exact ⟨rfl, rfl⟩

/-- C10 applied to the misspelled criterion string gravidadee on the first
catalog row. -/
theorem criterio_desconhecido_usa_custo_beneficio_aplicado :
    pesoPulp "gravidadee" linhaP1 = linhaP1.gravidade / linhaP1.custo_r * 10000 ∧
    pesoGuloso "gravidadee" linhaP1 = linhaP1.gravidade / linhaP1.custo_r * 10000 :=
  criterio_desconhecido_usa_custo_beneficio "gravidadee" (by decide) (by decide) linhaP1

end Onco
